import Mathlib

/-!
Verification of the Adaptive Perception Input Pipeline of BalloonAdventure
(`js/Systems/InputManager.js`, with `js/Core/EventManager.js` and
`js/Core/GameConfigurationManager.js`).

JavaScript numbers are modelled as rationals (`ℚ`), timestamps from
`performance.now()` as rationals, and the mutable `InputManager` object as an
explicit state record threaded through pure transition functions.  Event
emission through the bus is modelled as an ordered trace (`List Ev`); the bus
delivers synchronously, so trace order is delivery order.

The repository snapshot does not contain the `AI_MONITORING` section of
`GameConfig` (only its call sites appear in `InputManager`); those constants
are modelled from the spec as a parameter record `AIMonitoring`.
-/

set_option autoImplicit false

/-- Input mode of the controller: field `inputType` of `InputManager`. -/
inductive InputMode where
  | NONE
  | CAMERA
  | MOUSE
deriving DecidableEq, Repr

/-- Payloads of the `INPUT_MODE_CHANGED` event. -/
inductive ModeTag where
  | CAMERA_INIT
  | MOUSE_FALLBACK
  | CAMERA_RESTORE
deriving DecidableEq, Repr

/-- Observable actions of the pipeline: telemetry events emitted on the bus,
plus a ghost `submit` action recording each `hands.send` call of the frame
loop together with the loop generation that issued it. -/
inductive Ev where
  | stressUpdated (v : ℚ)
  | modeChanged (t : ModeTag)
  | gestureAccuracy (n : ℤ)
  | submit (gen : Nat)
deriving DecidableEq, Repr

/-- Modelled from the spec: the `AI_MONITORING` section of `GameConfig` is
absent from the snapshot (only `MAX_LATENCY_MS`, `WATCHDOG_INTERVAL`,
`WATCHDOG_TIMEOUT`, `CRITICAL_STRESS_THRESHOLD` and `AUTO_FALLBACK_DURATION`
are read by `InputManager`), so it is a parameter record here. -/
structure AIMonitoring where
  MAX_LATENCY_MS : ℚ
  WATCHDOG_INTERVAL : ℚ
  WATCHDOG_TIMEOUT : ℚ
  CRITICAL_STRESS_THRESHOLD : ℚ
  AUTO_FALLBACK_DURATION : ℚ
deriving DecidableEq, Repr

/-- Ghost record of one outstanding `hands.send` call: the loop generation
that issued it and the identifier of the `Hands` instance it was sent to. -/
structure PendingCall where
  gen : Nat
  handsId : Nat
deriving DecidableEq, Repr

/-- State of the `InputManager` object.  Fields up to `RECOVERY_DELAY` are
the object's own fields; `pendingCalls`, `closedHands` and `nextHandsId` are
ghost state tracking outstanding asynchronous `hands.send` calls and the
lifecycle of `Hands` instances, and `stoppedTracks` records every camera
track on which `track.stop()` was called. -/
structure IMState where
  inputType : InputMode
  isInitialized : Bool
  currentLoopId : Nat
  isProcessing : Bool
  lastFrameTime : ℚ
  criticalStressStartTime : ℚ
  targetY : ℚ
  smoothedY : ℚ
  mouseY : ℚ
  consecutiveErrors : Nat
  MAX_ERRORS : Nat
  hands : Option Nat
  cameraStream : Option (List Nat)
  watchdogActive : Bool
  recoveryActive : Bool
  stoppedTracks : List Nat
  pendingCalls : List PendingCall
  closedHands : List Nat
  nextHandsId : Nat
deriving DecidableEq, Repr

/-- State produced by the constructor `new InputManager(videoElement)`. -/
def initialIMState : IMState where
  inputType := .NONE
  isInitialized := false
  currentLoopId := 0
  isProcessing := false
  lastFrameTime := 0
  criticalStressStartTime := 0
  targetY := 1/2
  smoothedY := 1/2
  mouseY := 1/2
  consecutiveErrors := 0
  MAX_ERRORS := 15
  hands := none
  cameraStream := none
  watchdogActive := false
  recoveryActive := false
  stoppedTracks := []
  pendingCalls := []
  closedHands := []
  nextHandsId := 0

/-- `InputManager._calculateHybridStress(latency)`: worst case of latency
stress and error stress, each capped by `Math.min(100, ·)`. -/
def calculateHybridStress (cfg : AIMonitoring) (s : IMState) (latency : ℚ) : ℚ :=
  let latencyStress := min 100 (latency / cfg.MAX_LATENCY_MS * 100)
  let errorStress := min 100 ((s.consecutiveErrors : ℚ) / (s.MAX_ERRORS : ℚ) * 100)
  max latencyStress errorStress

/-- `InputManager._stopCameraStream()`: calls `track.stop()` on every track
of the current stream, drops the stream reference and detaches the video
source.  Stopped tracks are recorded in the ghost field `stoppedTracks`. -/
def stopCameraStream (s : IMState) : IMState :=
  match s.cameraStream with
  | some tracks =>
      { s with cameraStream := none, stoppedTracks := s.stoppedTracks ++ tracks }
  | none => s

/-- `InputManager._hardResetAI()` on the non-throwing path: closes the
previous `Hands` instance (if any) and installs a fresh one.  Fresh instance
identifiers are drawn from the ghost counter `nextHandsId`; closing an
instance discards its still-outstanding calls, whose completions can no
longer be delivered. -/
def hardResetAIok (s : IMState) : IMState :=
  let s1 :=
    match s.hands with
    | some h =>
        { s with closedHands := h :: s.closedHands, hands := none,
                 pendingCalls := s.pendingCalls.filter
                   (fun p => p.handsId ≠ h) }
    | none => s
  { s1 with hands := some s1.nextHandsId, nextHandsId := s1.nextHandsId + 1 }

/-- `InputManager._hardResetAI()` when `new Hands(...)` throws: the old
instance was already closed and nulled, the fresh assignment never lands. -/
def hardResetAIfail (s : IMState) : IMState :=
  match s.hands with
  | some h =>
      { s with closedHands := h :: s.closedHands, hands := none,
               pendingCalls := s.pendingCalls.filter
                 (fun p => p.handsId ≠ h) }
  | none => s

/-- `InputManager.enableFallbackMode()`.  `dep` is the runtime check
`typeof Hands !== 'undefined' && !window.mediaPipeLoadError` guarding the
recovery prober.  Returns the new state and the emitted event trace. -/
def enableFallbackMode (dep : Bool) (s : IMState) : IMState × List Ev :=
  if s.inputType = .MOUSE then (s, [])
  else
    let s1 := { s with watchdogActive := false, inputType := InputMode.MOUSE,
                       isInitialized := true, isProcessing := false }
    let s2 := stopCameraStream s1
    let s3 := { s2 with currentLoopId := s2.currentLoopId + 1 }
    let s4 := if dep then { s3 with recoveryActive := true } else s3
    (s4, [Ev.modeChanged .MOUSE_FALLBACK, Ev.gestureAccuracy 100])

/-- `InputManager.startTracking()`: bumps the loop generation and starts the
watchdog; the first `_cameraLoop` invocation is a separate tick step. -/
def startTracking (s : IMState) : IMState :=
  if s.inputType = .CAMERA then
    { s with currentLoopId := s.currentLoopId + 1, watchdogActive := true }
  else s

/-- `InputManager.restoreCameraMode()`. -/
def restoreCameraMode (s : IMState) : IMState × List Ev :=
  let s1 := { s with recoveryActive := false, inputType := InputMode.CAMERA,
                     consecutiveErrors := 0, criticalStressStartTime := 0 }
  (startTracking s1, [Ev.modeChanged .CAMERA_RESTORE])

/-- One hand record of a MediaPipe result: the handedness confidence score
and the `y` coordinate of landmark 8 (index-finger tip), the only fields the
pipeline reads. -/
structure HandRecord where
  score : ℚ
  indexTipY : ℚ
deriving DecidableEq, Repr

/-- A MediaPipe results object: the (paired) `multiHandLandmarks` /
`multiHandedness` arrays. -/
structure Results where
  hands : List HandRecord
deriving DecidableEq, Repr

/-- Step 5 of `handleResults` (standard tracking logic): accuracy telemetry
and, above the 0.35 confidence gate, the clamped mapping of the landmark
into the output range. -/
def trackingStep (s : IMState) (res : Results) (evs : List Ev) : IMState × List Ev :=
  match res.hands with
  | [] => (s, evs ++ [Ev.gestureAccuracy 0])
  | h :: _ =>
      if h.score > 35/100 then
        ({ s with targetY := max 0 (min 1 ((h.indexTipY - 3/10) / (7/10 - 3/10))) },
         evs ++ [Ev.gestureAccuracy (round (h.score * 100))])
      else (s, evs ++ [Ev.gestureAccuracy (round (h.score * 100))])

/-- `InputManager.handleResults(res)`, the success continuation of an
inference call, invoked with the arrival timestamp `now`. -/
def handleResults (cfg : AIMonitoring) (dep : Bool) (s : IMState) (res : Results)
    (now : ℚ) : IMState × List Ev :=
  if s.inputType ≠ .CAMERA then (s, [])
  else
    let latency := now - s.lastFrameTime
    let s1 := { s with isProcessing := false, consecutiveErrors := 0 }
    let stress := calculateHybridStress cfg s1 latency
    let evs0 := [Ev.stressUpdated stress]
    if stress > cfg.CRITICAL_STRESS_THRESHOLD then
      if s1.criticalStressStartTime = 0 then
        trackingStep { s1 with criticalStressStartTime := now } res evs0
      else if now - s1.criticalStressStartTime > cfg.AUTO_FALLBACK_DURATION then
        let f := enableFallbackMode dep s1
        (f.1, evs0 ++ f.2)
      else trackingStep s1 res evs0
    else trackingStep { s1 with criticalStressStartTime := 0 } res evs0

/-- One firing of the watchdog interval callback of
`InputManager._startWatchdog()` at time `now`. -/
def watchdogTick (cfg : AIMonitoring) (dep : Bool) (s : IMState) (now : ℚ) :
    IMState × List Ev :=
  if s.isProcessing = true ∧ now - s.lastFrameTime > cfg.WATCHDOG_TIMEOUT then
    let f := enableFallbackMode dep s
    (f.1, Ev.stressUpdated 100 :: f.2)
  else (s, [])

/-- The `catch` continuation of `await this.hands.send(...)` inside
`_cameraLoop`: unlock, count the error, emit stress computed at latency 0
from the new error count, then evaluate the error budget.  The returned
`Bool` is true when the loop rescheduled itself (no fallback). -/
def cameraLoopFailure (cfg : AIMonitoring) (dep : Bool) (s : IMState) :
    IMState × List Ev × Bool :=
  let s1 := { s with isProcessing := false,
                     consecutiveErrors := s.consecutiveErrors + 1 }
  let stress := calculateHybridStress cfg s1 0
  if s1.consecutiveErrors > s1.MAX_ERRORS then
    let f := enableFallbackMode dep s1
    (f.1, Ev.stressUpdated stress :: f.2, false)
  else
    (s1, [Ev.stressUpdated stress], true)

/-- Outcome of one `_cameraLoop(loopId)` tick up to its suspension point. -/
inductive TickResult where
  | dead
  | backpressure
  | submitted
  | syncFailed
  | skipped
deriving DecidableEq, Repr

/-- One `_cameraLoop(loopId)` tick at time `now`.  `ready` is
`this.video && this.video.readyState >= 2`.  On submission the state
records the outstanding call (ghost) and the lock is taken; the call's
completion (success or failure) is delivered by a separate step.  When
`this.hands` is null, reading `this.hands.send` throws synchronously inside
the `try`, which runs the `catch` continuation in the same tick. -/
def cameraLoopTick (cfg : AIMonitoring) (dep : Bool) (s : IMState) (loopId : Nat)
    (now : ℚ) (ready : Bool) : IMState × List Ev × TickResult :=
  if loopId ≠ s.currentLoopId ∨ s.inputType ≠ .CAMERA then (s, [], .dead)
  else if s.isProcessing then
    (s, [Ev.stressUpdated (calculateHybridStress cfg s (now - s.lastFrameTime))],
     .backpressure)
  else if ready then
    match s.hands with
    | some hid =>
        ({ s with isProcessing := true, lastFrameTime := now,
                  pendingCalls := ⟨loopId, hid⟩ :: s.pendingCalls },
         [Ev.submit loopId], .submitted)
    | none =>
        let s1 := { s with isProcessing := true, lastFrameTime := now }
        let f := cameraLoopFailure cfg dep s1
        (f.1, f.2.1, .syncFailed)
  else (s, [], .skipped)

/-- Outcome of one background recovery attempt, enumerating the suspension
and failure points of `_attemptRecovery`. -/
inductive RecoveryOutcome where
  | cameraFail
  | aiFail
  | videoNotReady
  | probeFail
  | success
deriving DecidableEq, Repr

/-- `InputManager._attemptRecovery()` under a given outcome.  `newTracks` is
the track list of the stream a successful `getUserMedia` returns. -/
def attemptRecovery (s : IMState) (oc : RecoveryOutcome)
    (newTracks : List Nat) : IMState × List Ev :=
  if s.inputType = .CAMERA then
    ({ s with recoveryActive := false }, [])
  else
    match oc with
    | .cameraFail =>
        let s1 := stopCameraStream s
        ({ stopCameraStream s1 with isProcessing := false }, [])
    | .aiFail =>
        let s1 := { stopCameraStream s with cameraStream := some newTracks }
        let s2 := hardResetAIfail s1
        ({ stopCameraStream s2 with isProcessing := false }, [])
    | .videoNotReady =>
        let s1 := { stopCameraStream s with cameraStream := some newTracks }
        (hardResetAIok s1, [])
    | .probeFail =>
        let s1 := { stopCameraStream s with cameraStream := some newTracks }
        let s2 := hardResetAIok s1
        let s3 := { s2 with isProcessing := true }
        ({ stopCameraStream s3 with isProcessing := false }, [])
    | .success =>
        let s1 := { stopCameraStream s with cameraStream := some newTracks }
        let s2 := hardResetAIok s1
        let s3 := { s2 with isProcessing := true }
        restoreCameraMode { s3 with isProcessing := false }

/-- The `mousemove` listener of `_setupMouseListeners`: `ratio` is
`e.clientY / window.innerHeight`. -/
def mouseMove (s : IMState) (ratio : ℚ) : IMState :=
  { s with mouseY := max 0 (min 1 ratio) }

/-- The `touchmove` listener: same clamp, guarded by a nonempty touch
list. -/
def touchMove (s : IMState) (touches : List ℚ) : IMState :=
  match touches with
  | [] => s
  | t :: _ => { s with mouseY := max 0 (min 1 t) }

/-- One step of the exponential moving average of `getY`. -/
def smoothStep (raw s : ℚ) : ℚ := raw * (22/100) + s * (78/100)

/-- `InputManager.getY()`: selects the raw input by mode, updates the
smoothed value and returns it. -/
def getY (s : IMState) : IMState × ℚ :=
  let rawInput := if s.inputType = .CAMERA then s.targetY else s.mouseY
  let sm := smoothStep rawInput s.smoothedY
  ({ s with smoothedY := sm }, sm)

/-- The spec's `clamp(x, lo, hi)`. -/
def specClamp (x lo hi : ℚ) : ℚ := max lo (min hi x)

/-- Stress model as worded by the spec: `latencyStress = clamp(100 *
latency / maxExpectedLatency, 0, 100)`, `errorStress = clamp(100 *
consecutiveErrors / maxErrors, 0, 100)`, result the max of the two. -/
def specStress (maxExpectedLatency maxErrors latency consecutiveErrors : ℚ) : ℚ :=
  max (specClamp (100 * latency / maxExpectedLatency) 0 100)
      (specClamp (100 * consecutiveErrors / maxErrors) 0 100)

/-- C1: for latency `L ≥ 0` and any consecutive-error count, the stress
score of `_calculateHybridStress` equals the spec formula
`max(clamp(100*L/maxExpectedLatency, 0, 100), clamp(100*E/maxErrors, 0, 100))`
and lies in `[0, 100]`.  The positivity of `MAX_LATENCY_MS` is part of the
spec-modelled configuration; `MAX_ERRORS` is the source constant `15`. -/
theorem C1_hybrid_stress_matches_spec (cfg : AIMonitoring) (s : IMState) (L : ℚ)
    (hL : 0 ≤ L) (hM : 0 < cfg.MAX_LATENCY_MS) (hE : s.MAX_ERRORS = 15) :
    calculateHybridStress cfg s L =
      specStress cfg.MAX_LATENCY_MS (s.MAX_ERRORS : ℚ) L (s.consecutiveErrors : ℚ) ∧
    0 ≤ calculateHybridStress cfg s L ∧ calculateHybridStress cfg s L ≤ 100 := by
  have hMne : cfg.MAX_LATENCY_MS ≠ 0 := ne_of_gt hM
  have hlat : L / cfg.MAX_LATENCY_MS * 100 = 100 * L / cfg.MAX_LATENCY_MS := by
    ring
  have hlat0 : (0:ℚ) ≤ 100 * L / cfg.MAX_LATENCY_MS := by positivity
  have herr : (s.consecutiveErrors : ℚ) / (s.MAX_ERRORS : ℚ) * 100 =
      100 * (s.consecutiveErrors : ℚ) / (s.MAX_ERRORS : ℚ) := by
    ring
  have herr0 : (0:ℚ) ≤ 100 * (s.consecutiveErrors : ℚ) / (s.MAX_ERRORS : ℚ) := by
    positivity
  constructor
  · unfold calculateHybridStress specStress specClamp
    rw [hlat, herr, max_eq_right (le_min (by norm_num) hlat0),
      max_eq_right (le_min (by norm_num) herr0)]
  · constructor
    · unfold calculateHybridStress
      have : (0:ℚ) ≤ min 100 (L / cfg.MAX_LATENCY_MS * 100) := by
        rw [hlat] at *
        exact le_min (by norm_num) hlat0
      exact le_trans this (le_max_left _ _)
    · unfold calculateHybridStress
      exact max_le (min_le_left _ _) (min_le_left _ _)

/-- Witness for C1 at a concrete configuration and state. -/
theorem C1_hybrid_stress_matches_spec_witness :
    (0:ℚ) ≤ 50 ∧ (0:ℚ) < 100 ∧ initialIMState.MAX_ERRORS = 15 ∧
    (calculateHybridStress ⟨100, 500, 1000, 90, 3000⟩ initialIMState 50 =
       specStress 100 (initialIMState.MAX_ERRORS : ℚ) 50
         (initialIMState.consecutiveErrors : ℚ) ∧
     0 ≤ calculateHybridStress ⟨100, 500, 1000, 90, 3000⟩ initialIMState 50 ∧
     calculateHybridStress ⟨100, 500, 1000, 90, 3000⟩ initialIMState 50 ≤ 100) :=
  ⟨by norm_num, by norm_num, rfl,
   C1_hybrid_stress_matches_spec ⟨100, 500, 1000, 90, 3000⟩ initialIMState 50
     (by norm_num) (by norm_num) rfl⟩

/-- Fields of `enableFallbackMode` needed repeatedly below. -/
theorem enableFallbackMode_camera (dep : Bool) (s : IMState)
    (hmode : s.inputType = .CAMERA) :
    (enableFallbackMode dep s).1.inputType = .MOUSE ∧
    (enableFallbackMode dep s).2 =
      [Ev.modeChanged .MOUSE_FALLBACK, Ev.gestureAccuracy 100] := by
  unfold enableFallbackMode
  rw [if_neg (by rw [hmode]; intro h; cases h)]
  cases dep <;> unfold stopCameraStream <;>
    cases h : s.cameraStream <;> simp

/-- C2: with the processing lock held and the elapsed time past the watchdog
timeout, a watchdog tick in CAMERA mode forces failover to MOUSE, and its
event trace carries the stress sample 100 strictly before the
`MOUSE_FALLBACK` mode-changed event.  The bus (`EventManager.emit`) delivers
synchronously, so trace order is the order subscribers observe. -/
theorem C2_watchdog_ordering (cfg : AIMonitoring) (dep : Bool) (s : IMState)
    (now : ℚ) (hmode : s.inputType = .CAMERA) (hlock : s.isProcessing = true)
    (ht : now - s.lastFrameTime > cfg.WATCHDOG_TIMEOUT) :
    (watchdogTick cfg dep s now).1.inputType = .MOUSE ∧
    (watchdogTick cfg dep s now).2 =
      [Ev.stressUpdated 100, Ev.modeChanged .MOUSE_FALLBACK,
       Ev.gestureAccuracy 100] ∧
    ∃ i j : Nat, i < j ∧
      (watchdogTick cfg dep s now).2.get? i = some (Ev.stressUpdated 100) ∧
      (watchdogTick cfg dep s now).2.get? j =
        some (Ev.modeChanged .MOUSE_FALLBACK) := by
  have hfb := enableFallbackMode_camera dep s hmode
  have hw : watchdogTick cfg dep s now =
      ((enableFallbackMode dep s).1,
       Ev.stressUpdated 100 :: (enableFallbackMode dep s).2) := by
    unfold watchdogTick
    rw [if_pos ⟨hlock, ht⟩]
  rw [hw, hfb.2]
  exact ⟨hfb.1, rfl, 0, 1, by norm_num, rfl, rfl⟩

/-- A concrete CAMERA-mode state whose inference call has been outstanding
since time 0. -/
def hungState : IMState :=
  { initialIMState with inputType := .CAMERA, isProcessing := true,
                        lastFrameTime := 0, hands := some 0, nextHandsId := 1 }

/-- A concrete spec-modelled monitoring configuration, using the spec's
example values (watchdog every 500 ms, 1 s timeout, threshold 90, 3 s
window). -/
def sampleCfg : AIMonitoring :=
  ⟨100, 500, 1000, 90, 3000⟩

/-- Witness for C2: a hung call in CAMERA mode at a concrete state. -/
theorem C2_watchdog_ordering_witness :
    hungState.inputType = .CAMERA ∧ hungState.isProcessing = true ∧
    (2000 : ℚ) - hungState.lastFrameTime > sampleCfg.WATCHDOG_TIMEOUT ∧
    ((watchdogTick sampleCfg true hungState 2000).1.inputType = .MOUSE ∧
     (watchdogTick sampleCfg true hungState 2000).2 =
       [Ev.stressUpdated 100, Ev.modeChanged .MOUSE_FALLBACK,
        Ev.gestureAccuracy 100] ∧
     ∃ i j : Nat, i < j ∧
       (watchdogTick sampleCfg true hungState 2000).2.get? i =
         some (Ev.stressUpdated 100) ∧
       (watchdogTick sampleCfg true hungState 2000).2.get? j =
         some (Ev.modeChanged .MOUSE_FALLBACK)) :=
  ⟨rfl, rfl, by norm_num [hungState, sampleCfg],
   C2_watchdog_ordering sampleCfg true hungState 2000 rfl rfl
     (by norm_num [hungState, sampleCfg])⟩

/-- `n` consecutive invocations of the failure continuation of
`_cameraLoop` (the `catch` block), with no intervening success. -/
def failIter (cfg : AIMonitoring) (dep : Bool) (s : IMState) : Nat → IMState
  | 0 => s
  | n + 1 => (cameraLoopFailure cfg dep (failIter cfg dep s n)).1

/-- Unfolding of the failure continuation below the error budget. -/
theorem cameraLoopFailure_under_budget (cfg : AIMonitoring) (dep : Bool)
    (t : IMState) (hmax : t.MAX_ERRORS = 15) (hlt : t.consecutiveErrors < 15) :
    cameraLoopFailure cfg dep t =
      ({ t with
          isProcessing := false,
          consecutiveErrors := t.consecutiveErrors + 1 },
       [Ev.stressUpdated
          (min 100 (((t.consecutiveErrors : ℚ) + 1) / 15 * 100))], true) := by
  have hcond : ¬ (t.consecutiveErrors + 1 > t.MAX_ERRORS) := by omega
  have hstress :
      calculateHybridStress cfg
        { t with
            isProcessing := false,
            consecutiveErrors := t.consecutiveErrors + 1 } 0 =
        min 100 (((t.consecutiveErrors : ℚ) + 1) / 15 * 100) := by
    unfold calculateHybridStress
    have h0 : (0:ℚ) / cfg.MAX_LATENCY_MS * 100 = 0 := by
      rw [zero_div, zero_mul]
    simp only [h0, hmax]
    rw [min_eq_right (by norm_num : (0:ℚ) ≤ 100)]
    rw [max_eq_right (le_min (by norm_num) (by positivity))]
    norm_num
  unfold cameraLoopFailure
  rw [if_neg hcond, hstress]

/-- Field bookkeeping for the first fifteen consecutive failures. -/
theorem failIter_le_budget (cfg : AIMonitoring) (dep : Bool) (s : IMState)
    (hmode : s.inputType = .CAMERA) (herr : s.consecutiveErrors = 0)
    (hmax : s.MAX_ERRORS = 15) :
    ∀ k, k ≤ 15 → (failIter cfg dep s k).inputType = .CAMERA ∧
      (failIter cfg dep s k).consecutiveErrors = k ∧
      (failIter cfg dep s k).MAX_ERRORS = 15 := by
  intro k
  induction k with
  | zero => exact fun _ => ⟨hmode, herr, hmax⟩
  | succ n ih =>
      intro hn
      have hprev := ih (by omega)
      have hstep := cameraLoopFailure_under_budget cfg dep (failIter cfg dep s n)
        hprev.2.2 (by omega)
      have hdef : failIter cfg dep s (n + 1) =
          (cameraLoopFailure cfg dep (failIter cfg dep s n)).1 := rfl
      rw [hdef, hstep]
      exact ⟨hprev.1, by rw [hprev.2.1], hprev.2.2⟩

/-- Unfolding of the failure continuation on the sixteenth consecutive
failure: the budget check fires and fallback is entered. -/
theorem cameraLoopFailure_over_budget (cfg : AIMonitoring) (dep : Bool)
    (t : IMState) (hmode : t.inputType = .CAMERA)
    (herr : t.consecutiveErrors = 15) (hmax : t.MAX_ERRORS = 15) :
    (cameraLoopFailure cfg dep t).1.inputType = .MOUSE ∧
    (cameraLoopFailure cfg dep t).1.isProcessing = false ∧
    (cameraLoopFailure cfg dep t).2 =
      ([Ev.stressUpdated 100, Ev.modeChanged .MOUSE_FALLBACK,
        Ev.gestureAccuracy 100], false) := by
  have hcond : t.consecutiveErrors + 1 > t.MAX_ERRORS := by omega
  have hstress :
      calculateHybridStress cfg
        { t with
            isProcessing := false,
            consecutiveErrors := t.consecutiveErrors + 1 } 0 = 100 := by
    unfold calculateHybridStress
    have h0 : (0:ℚ) / cfg.MAX_LATENCY_MS * 100 = 0 := by
      rw [zero_div, zero_mul]
    simp only [h0, hmax, herr]
    norm_num
  have hmode2 : ({ t with
      isProcessing := false,
      consecutiveErrors := t.consecutiveErrors + 1 } : IMState).inputType
        = .CAMERA := hmode
  have hfb := enableFallbackMode_camera dep _ hmode2
  have hstep : cameraLoopFailure cfg dep t =
      ((enableFallbackMode dep { t with
          isProcessing := false,
          consecutiveErrors := t.consecutiveErrors + 1 }).1,
       Ev.stressUpdated 100 ::
         (enableFallbackMode dep { t with
             isProcessing := false,
             consecutiveErrors := t.consecutiveErrors + 1 }).2, false) := by
    unfold cameraLoopFailure
    rw [if_pos hcond, hstress]
  rw [hstep, hfb.2]
  refine ⟨hfb.1, ?_, rfl⟩
  unfold enableFallbackMode
  rw [if_neg (by rw [hmode2]; intro h; cases h)]
  cases dep <;> unfold stopCameraStream <;>
    cases hcs : ({ t with
        isProcessing := false,
        consecutiveErrors := t.consecutiveErrors + 1 } : IMState).cameraStream <;>
    simp

/-- C5: starting from a CAMERA state with a zero error counter and
`MAX_ERRORS = 15`, the first fifteen consecutive submit failures leave the
mode at CAMERA (each one releasing the lock, incrementing the counter and
emitting the error-stress sample computed at latency 0 before the budget is
checked), and exactly the sixteenth failure flips the mode to MOUSE, its
trace emitting the stress sample 100 before the `MOUSE_FALLBACK` event. -/
theorem C5_error_budget (cfg : AIMonitoring) (dep : Bool) (s : IMState)
    (hmode : s.inputType = .CAMERA) (herr : s.consecutiveErrors = 0)
    (hmax : s.MAX_ERRORS = 15) :
    (∀ k, k ≤ 15 → (failIter cfg dep s k).inputType = .CAMERA ∧
       (failIter cfg dep s k).consecutiveErrors = k) ∧
    (∀ k, k < 15 →
       cameraLoopFailure cfg dep (failIter cfg dep s k) =
         ({ failIter cfg dep s k with
              isProcessing := false, consecutiveErrors := k + 1 },
          [Ev.stressUpdated (min 100 (((k : ℚ) + 1) / 15 * 100))], true)) ∧
    (failIter cfg dep s 16).inputType = .MOUSE ∧
    (failIter cfg dep s 16).isProcessing = false ∧
    (cameraLoopFailure cfg dep (failIter cfg dep s 15)).2 =
      ([Ev.stressUpdated 100, Ev.modeChanged .MOUSE_FALLBACK,
        Ev.gestureAccuracy 100], false) := by
  have hfields := failIter_le_budget cfg dep s hmode herr hmax
  refine ⟨fun k hk => ⟨(hfields k hk).1, (hfields k hk).2.1⟩, ?_, ?_⟩
  · intro k hk
    have hprev := hfields k (by omega)
    have := cameraLoopFailure_under_budget cfg dep (failIter cfg dep s k)
      hprev.2.2 (by omega)
    rw [this, hprev.2.1]
  · have h15 := hfields 15 (by omega)
    have hover := cameraLoopFailure_over_budget cfg dep (failIter cfg dep s 15)
      h15.1 h15.2.1 h15.2.2
    have hdef16 : failIter cfg dep s 16 =
        (cameraLoopFailure cfg dep (failIter cfg dep s 15)).1 := rfl
    rw [hdef16]
    exact hover

/-- Witness for C5 at a concrete CAMERA state. -/
theorem C5_error_budget_witness :
    hungState.inputType = .CAMERA ∧ hungState.consecutiveErrors = 0 ∧
    hungState.MAX_ERRORS = 15 ∧
    (failIter sampleCfg true hungState 16).inputType = .MOUSE :=
  ⟨rfl, rfl, rfl,
   (C5_error_budget sampleCfg true hungState rfl rfl rfl).2.2.1⟩

/-- `trackingStep` never changes the mode, the critical-stress timer, the
lock or the error counter. -/
theorem trackingStep_frame (s : IMState) (res : Results) (evs : List Ev) :
    (trackingStep s res evs).1.inputType = s.inputType ∧
    (trackingStep s res evs).1.criticalStressStartTime =
      s.criticalStressStartTime ∧
    (trackingStep s res evs).1.isProcessing = s.isProcessing ∧
    (trackingStep s res evs).1.consecutiveErrors = s.consecutiveErrors := by
  unfold trackingStep
  cases res.hands with
  | nil => exact ⟨rfl, rfl, rfl, rfl⟩
  | cons h rest =>
      dsimp only
      by_cases hs : h.score > 35/100
      · rw [if_pos hs]
        exact ⟨rfl, rfl, rfl, rfl⟩
      · rw [if_neg hs]
        exact ⟨rfl, rfl, rfl, rfl⟩

/-- `trackingStep` only appends to the event trace it is given. -/
theorem trackingStep_trace (s : IMState) (res : Results) (evs : List Ev) :
    ∃ tl, (trackingStep s res evs).2 = evs ++ tl := by
  unfold trackingStep
  cases res.hands with
  | nil => exact ⟨[Ev.gestureAccuracy 0], rfl⟩
  | cons h rest =>
      dsimp only
      by_cases hs : h.score > 35/100
      · rw [if_pos hs]
        exact ⟨[Ev.gestureAccuracy (round (h.score * 100))], rfl⟩
      · rw [if_neg hs]
        exact ⟨[Ev.gestureAccuracy (round (h.score * 100))], rfl⟩

/-- The stress sample `handleResults` computes and emits: the hybrid stress
at the measured latency, evaluated after the error counter reset. -/
def successStress (cfg : AIMonitoring) (s : IMState) (now : ℚ) : ℚ :=
  calculateHybridStress cfg
    { s with isProcessing := false, consecutiveErrors := 0 }
    (now - s.lastFrameTime)

/-- C6 (amended): in `handleResults`, a stress sample strictly above the
critical threshold starts the critical-stress timer when it is unset, and
triggers `enableFallbackMode` when the timer has been set for longer than
the sustain window; a sample at or below the threshold (threshold equality
included, since the source compares with strict `>`) resets the timer and
causes no fallback; strictly-above samples inside the window leave the
timer untouched.  The emitted trace starts with the stress sample. -/
theorem C6_sustained_stress_strict (cfg : AIMonitoring) (dep : Bool)
    (s : IMState) (res : Results) (now : ℚ)
    (hmode : s.inputType = .CAMERA) :
    (successStress cfg s now > cfg.CRITICAL_STRESS_THRESHOLD →
      s.criticalStressStartTime = 0 →
      (handleResults cfg dep s res now).1.criticalStressStartTime = now ∧
      (handleResults cfg dep s res now).1.inputType = .CAMERA) ∧
    (successStress cfg s now > cfg.CRITICAL_STRESS_THRESHOLD →
      s.criticalStressStartTime ≠ 0 →
      now - s.criticalStressStartTime > cfg.AUTO_FALLBACK_DURATION →
      (handleResults cfg dep s res now).1.inputType = .MOUSE) ∧
    (successStress cfg s now > cfg.CRITICAL_STRESS_THRESHOLD →
      s.criticalStressStartTime ≠ 0 →
      ¬ (now - s.criticalStressStartTime > cfg.AUTO_FALLBACK_DURATION) →
      (handleResults cfg dep s res now).1.criticalStressStartTime =
        s.criticalStressStartTime ∧
      (handleResults cfg dep s res now).1.inputType = .CAMERA) ∧
    (¬ (successStress cfg s now > cfg.CRITICAL_STRESS_THRESHOLD) →
      (handleResults cfg dep s res now).1.criticalStressStartTime = 0 ∧
      (handleResults cfg dep s res now).1.inputType = .CAMERA) ∧
    (handleResults cfg dep s res now).2.head? =
      some (Ev.stressUpdated (successStress cfg s now)) := by
  have hne : ¬ (s.inputType ≠ .CAMERA) := by rw [hmode]; simp
  have hhead : ∀ (t : IMState) (e : Ev),
      (trackingStep t res [e]).2.head? = some e := by
    intro t e
    obtain ⟨tl, htl⟩ := trackingStep_trace t res [e]
    rw [htl]
    rfl
  unfold handleResults
  rw [if_neg hne]
  by_cases hgt :
      successStress cfg s now > cfg.CRITICAL_STRESS_THRESHOLD
  · rw [if_pos (by exact hgt)]
    by_cases hz : s.criticalStressStartTime = 0
    · rw [if_pos (by exact hz)]
      refine ⟨fun _ _ => ⟨?_, ?_⟩, fun _ hz2 => absurd hz hz2,
        fun _ hz2 => absurd hz hz2, fun hn => absurd hgt hn, hhead _ _⟩
      · exact (trackingStep_frame _ res _).2.1
      · exact (trackingStep_frame _ res _).1.trans hmode
    · rw [if_neg (by exact hz)]
      by_cases hd : now - s.criticalStressStartTime >
          cfg.AUTO_FALLBACK_DURATION
      · rw [if_pos (by exact hd)]
        have hfb := enableFallbackMode_camera dep
          { s with isProcessing := false, consecutiveErrors := 0 } hmode
        refine ⟨fun _ hz2 => absurd hz2 hz,
          fun _ _ _ => hfb.1, fun _ _ hd2 => absurd hd hd2,
          fun hn => absurd hgt hn, ?_⟩
        rfl
      · rw [if_neg (by exact hd)]
        refine ⟨fun _ hz2 => absurd hz2 hz,
          fun _ _ hd2 => absurd hd2 hd, fun _ _ _ => ⟨?_, ?_⟩,
          fun hn => absurd hgt hn, hhead _ _⟩
        · exact (trackingStep_frame _ res _).2.1
        · exact (trackingStep_frame _ res _).1.trans hmode
  · rw [if_neg (by exact hgt)]
    refine ⟨fun hg => absurd hg hgt, fun hg _ => absurd hg hgt,
      fun hg => absurd hg hgt, fun _ => ⟨?_, ?_⟩, hhead _ _⟩
    · exact (trackingStep_frame _ res _).2.1
    · exact (trackingStep_frame _ res _).1.trans hmode

/-- A CAMERA state whose critical-stress timer has been set since time 1 and
whose current frame has been in flight since time 4910. -/
def critState : IMState :=
  { initialIMState with inputType := .CAMERA, lastFrameTime := 4910,
                        criticalStressStartTime := 1, hands := some 0,
                        nextHandsId := 1 }

/-- A stress sample not strictly above the threshold resets the timer and
leaves the mode at CAMERA. -/
theorem handleResults_not_critical (cfg : AIMonitoring) (dep : Bool)
    (s : IMState) (res : Results) (now : ℚ) (hmode : s.inputType = .CAMERA)
    (hle : ¬ (successStress cfg s now > cfg.CRITICAL_STRESS_THRESHOLD)) :
    (handleResults cfg dep s res now).1.criticalStressStartTime = 0 ∧
    (handleResults cfg dep s res now).1.inputType = .CAMERA := by
  have hne : ¬ (s.inputType ≠ .CAMERA) := by rw [hmode]; simp
  unfold handleResults
  rw [if_neg hne, if_neg (by exact hle)]
  exact ⟨(trackingStep_frame _ res _).2.1,
    (trackingStep_frame _ res _).1.trans hmode⟩

/-- The concrete stress value of the counterexample below. -/
theorem critState_stress :
    successStress sampleCfg critState 5000 = 90 := by
  unfold successStress calculateHybridStress critState sampleCfg initialIMState
  norm_num

/-- Counterexample to C6 as stated: at time 5000 the emitted stress sample
is exactly the critical threshold (90) and the timer has been set for 4999
ms, far beyond the 3000 ms window, so the claim ("a sample at or above the
threshold ... triggers enableFallbackMode") demands a fallback; the source
compares with strict `>`, takes the else branch, resets the timer to 0 and
stays in CAMERA mode. -/
theorem C6_threshold_counterexample :
    successStress sampleCfg critState 5000 =
      sampleCfg.CRITICAL_STRESS_THRESHOLD ∧
    critState.criticalStressStartTime ≠ 0 ∧
    5000 - critState.criticalStressStartTime >
      sampleCfg.AUTO_FALLBACK_DURATION ∧
    (handleResults sampleCfg true critState ⟨[]⟩ 5000).1.inputType =
      .CAMERA ∧
    (handleResults sampleCfg true critState ⟨[]⟩
        5000).1.criticalStressStartTime = 0 := by
  have hle : ¬ (successStress sampleCfg critState 5000 >
      sampleCfg.CRITICAL_STRESS_THRESHOLD) := by
    rw [critState_stress]
    norm_num [sampleCfg]
  have h := handleResults_not_critical sampleCfg true critState ⟨[]⟩ 5000
    rfl hle
  refine ⟨?_, ?_, ?_, h.2, h.1⟩
  · rw [critState_stress]
    norm_num [sampleCfg]
  · norm_num [critState, initialIMState]
  · norm_num [critState, sampleCfg, initialIMState]

/-- Witness for the amended C6 theorem at a concrete input. -/
theorem C6_sustained_stress_strict_witness :
    critState.inputType = .CAMERA ∧
    (handleResults sampleCfg true critState ⟨[]⟩ 5000).2.head? =
      some (Ev.stressUpdated (successStress sampleCfg critState 5000)) :=
  ⟨rfl,
   (C6_sustained_stress_strict sampleCfg true critState ⟨[]⟩ 5000
      rfl).2.2.2.2⟩

/-- The inference engine counts as released when no live instance is held:
either no instance is referenced, or the referenced one has been closed. -/
def engineReleased (s : IMState) : Prop :=
  s.hands = none ∨ ∃ h, s.hands = some h ∧ h ∈ s.closedHands

/-- A CAMERA state holding a live `Hands` instance (id 0) and a camera
stream with tracks 5 and 6. -/
def camState : IMState :=
  { initialIMState with inputType := .CAMERA, hands := some 0,
                        nextHandsId := 1, cameraStream := some [5, 6] }

/-- Counterexample to C3 as stated: `enableFallbackMode` on a CAMERA state
stops the camera stream tracks but does not dispose the inference engine —
the `Hands` instance stays referenced and unclosed after the transition
returns, while the claim demands both resources fully released. -/
theorem C3_engine_not_disposed_counterexample :
    camState.inputType = .CAMERA ∧
    (enableFallbackMode true camState).1.inputType = .MOUSE ∧
    (enableFallbackMode true camState).1.cameraStream = none ∧
    (enableFallbackMode true camState).1.stoppedTracks = [5, 6] ∧
    ¬ engineReleased (enableFallbackMode true camState).1 := by
  refine ⟨rfl, rfl, rfl, rfl, ?_⟩
  intro hrel
  have h1 : (enableFallbackMode true camState).1.hands = some 0 := rfl
  have h2 : (enableFallbackMode true camState).1.closedHands = [] := rfl
  rcases hrel with hnone | ⟨x, hx, hmem⟩
  · rw [h1] at hnone
    exact Option.noConfusion hnone
  · rw [h2] at hmem
    exact (List.not_mem_nil x) hmem

/-- C3 (amended): every fallback transition and every failed recovery
attempt stops all camera stream tracks and clears the stream reference
before returning, but neither disposes the inference engine:
`enableFallbackMode` and a camera-acquisition failure leave `hands` and the
closed set untouched, and a failed probe leaves the freshly constructed
instance live (only the prior instance, closed inside `_hardResetAI`, is
added to the closed set). -/
theorem C3_stream_released_engine_retained :
    (∀ (dep : Bool) (s : IMState), s.inputType = .CAMERA →
      (enableFallbackMode dep s).1.cameraStream = none ∧
      (∀ t, t ∈ s.cameraStream.getD [] →
        t ∈ (enableFallbackMode dep s).1.stoppedTracks) ∧
      (enableFallbackMode dep s).1.hands = s.hands ∧
      (enableFallbackMode dep s).1.closedHands = s.closedHands) ∧
    (∀ (s : IMState) (tracks : List Nat), s.inputType = .MOUSE →
      (attemptRecovery s .cameraFail tracks).1.cameraStream = none ∧
      (∀ t, t ∈ s.cameraStream.getD [] →
        t ∈ (attemptRecovery s .cameraFail tracks).1.stoppedTracks) ∧
      (attemptRecovery s .cameraFail tracks).1.hands = s.hands ∧
      (attemptRecovery s .cameraFail tracks).1.closedHands = s.closedHands) ∧
    (∀ (s : IMState) (tracks : List Nat), s.inputType = .MOUSE →
      (attemptRecovery s .aiFail tracks).1.cameraStream = none ∧
      (∀ t, t ∈ tracks →
        t ∈ (attemptRecovery s .aiFail tracks).1.stoppedTracks)) ∧
    (∀ (s : IMState) (tracks : List Nat) (h0 : Nat), s.inputType = .MOUSE →
      s.hands = some h0 →
      (attemptRecovery s .probeFail tracks).1.cameraStream = none ∧
      (∀ t, t ∈ tracks →
        t ∈ (attemptRecovery s .probeFail tracks).1.stoppedTracks) ∧
      (attemptRecovery s .probeFail tracks).1.hands = some s.nextHandsId ∧
      (attemptRecovery s .probeFail tracks).1.closedHands =
        h0 :: s.closedHands) := by
  refine ⟨?_, ?_, ?_, ?_⟩
  · intro dep s hmode
    unfold enableFallbackMode
    rw [if_neg (by rw [hmode]; intro h; cases h)]
    cases dep <;> unfold stopCameraStream <;> cases h : s.cameraStream <;>
      simp [h, List.mem_append] <;> intro t ht <;> tauto
  · intro s tracks hmode
    unfold attemptRecovery
    rw [if_neg (by rw [hmode]; intro h; cases h)]
    unfold stopCameraStream
    cases h : s.cameraStream <;> simp [h, List.mem_append] <;>
      intro t ht <;> tauto
  · intro s tracks hmode
    unfold attemptRecovery
    rw [if_neg (by rw [hmode]; intro h; cases h)]
    unfold stopCameraStream hardResetAIfail
    cases h : s.cameraStream <;> cases hh : s.hands <;>
      simp [h, hh, List.mem_append] <;> intro t ht <;> tauto
  · intro s tracks h0 hmode hh
    unfold attemptRecovery
    rw [if_neg (by rw [hmode]; intro h; cases h)]
    unfold stopCameraStream hardResetAIok
    cases h : s.cameraStream <;> simp [h, hh, List.mem_append] <;>
      intro t ht <;> tauto

/-- A MOUSE state holding the retained live instance 0 and a stale stream
with track 7, as left behind by a fallback. -/
def mouseState : IMState :=
  { initialIMState with inputType := .MOUSE, hands := some 0,
                        nextHandsId := 1, cameraStream := some [7] }

/-- Witness for the amended C3 theorem at concrete states. -/
theorem C3_stream_released_engine_retained_witness :
    camState.inputType = .CAMERA ∧ mouseState.inputType = .MOUSE ∧
    mouseState.hands = some 0 ∧
    (enableFallbackMode true camState).1.hands = camState.hands ∧
    (attemptRecovery mouseState .probeFail [8]).1.hands =
      some mouseState.nextHandsId :=
  ⟨rfl, rfl, rfl,
   (C3_stream_released_engine_retained.1 true camState rfl).2.2.1,
   (C3_stream_released_engine_retained.2.2.2 mouseState [8] 0 rfl
      rfl).2.2.1⟩

/-- Counterexample to C7 as stated: a submit-failure completion arriving
after failover (mode already MOUSE, generation bumped) is not disregarded —
the `catch` continuation of `_cameraLoop` has no mode or generation check,
so it still increments the error counter and emits a stress event. -/
theorem C7_stale_failure_counterexample :
    mouseState.inputType = .MOUSE ∧
    mouseState.consecutiveErrors = 0 ∧
    (cameraLoopFailure sampleCfg true mouseState).1.consecutiveErrors = 1 ∧
    ∃ v, (cameraLoopFailure sampleCfg true mouseState).2.1 =
      [Ev.stressUpdated v] :=
  ⟨rfl, rfl, rfl, ⟨_, rfl⟩⟩

/-- C7 (amended): a loop iteration whose captured token is stale, or whose
mode no longer matches, terminates on its next invocation with no state
change, no event and no submit; the success handler `handleResults`
disregards completions whenever the mode is not CAMERA (it performs no
generation check); the failure continuation performs no check at all — even
with the mode already MOUSE it still clears the lock, increments the error
counter and emits a stress sample, though the mode stays MOUSE because the
stale `enableFallbackMode` call is an idempotent no-op. -/
theorem C7_stale_generations (cfg : AIMonitoring) (dep : Bool) :
    (∀ (s : IMState) (loopId : Nat) (now : ℚ) (ready : Bool),
       loopId ≠ s.currentLoopId ∨ s.inputType ≠ .CAMERA →
       cameraLoopTick cfg dep s loopId now ready = (s, [], .dead)) ∧
    (∀ (s : IMState) (res : Results) (now : ℚ), s.inputType ≠ .CAMERA →
       handleResults cfg dep s res now = (s, [])) ∧
    (∀ s : IMState, s.inputType = .MOUSE →
       (cameraLoopFailure cfg dep s).1 =
         { s with isProcessing := false,
                  consecutiveErrors := s.consecutiveErrors + 1 } ∧
       (cameraLoopFailure cfg dep s).1.inputType = .MOUSE ∧
       (∃ v, (cameraLoopFailure cfg dep s).2.1 = [Ev.stressUpdated v])) := by
  refine ⟨?_, ?_, ?_⟩
  · intro s loopId now ready h
    unfold cameraLoopTick
    rw [if_pos h]
  · intro s res now h
    unfold handleResults
    rw [if_pos h]
  · intro s hmode
    unfold cameraLoopFailure
    by_cases hgt : s.consecutiveErrors + 1 > s.MAX_ERRORS
    · rw [if_pos hgt]
      unfold enableFallbackMode
      rw [if_pos (show ({ s with
          isProcessing := false,
          consecutiveErrors := s.consecutiveErrors + 1 } : IMState).inputType
            = .MOUSE from hmode)]
      exact ⟨rfl, hmode, ⟨_, rfl⟩⟩
    · rw [if_neg hgt]
      exact ⟨rfl, hmode, ⟨_, rfl⟩⟩

/-- Witness for the amended C7 theorem at concrete inputs. -/
theorem C7_stale_generations_witness :
    (99 ≠ camState.currentLoopId ∨ camState.inputType ≠ .CAMERA) ∧
    cameraLoopTick sampleCfg true camState 99 0 true =
      (camState, [], .dead) ∧
    mouseState.inputType ≠ .CAMERA ∧
    handleResults sampleCfg true mouseState ⟨[]⟩ 0 = (mouseState, []) :=
  ⟨Or.inl (by simp [camState, initialIMState]),
   (C7_stale_generations sampleCfg true).1 camState 99 0 true
     (Or.inl (by simp [camState, initialIMState])),
   by simp [mouseState, initialIMState],
   (C7_stale_generations sampleCfg true).2.1 mouseState ⟨[]⟩ 0
     (by simp [mouseState, initialIMState])⟩

/-- The raw input `getY` feeds into the smoothing filter: `targetY` in
CAMERA mode, `mouseY` otherwise. -/
def rawOf (s : IMState) : ℚ :=
  if s.inputType = .CAMERA then s.targetY else s.mouseY

/-- `n` successive `getY` calls. -/
def getYiter (s : IMState) : Nat → IMState
  | 0 => s
  | n + 1 => (getY (getYiter s n)).1

/-- The exponential moving average sequence produced by holding the raw
input constant at `v` from a start value `s0`. -/
def emaSeq (v s0 : ℚ) : Nat → ℚ
  | 0 => s0
  | n + 1 => smoothStep v (emaSeq v s0 n)

/-- `getY` leaves the mode and both raw inputs unchanged and replaces the
smoothed value with one smoothing step. -/
theorem getY_frame (s : IMState) :
    (getY s).1.inputType = s.inputType ∧ (getY s).1.targetY = s.targetY ∧
    (getY s).1.mouseY = s.mouseY ∧
    (getY s).1.smoothedY = smoothStep (rawOf s) s.smoothedY ∧
    (getY s).2 = smoothStep (rawOf s) s.smoothedY := by
  unfold getY rawOf
  by_cases h : s.inputType = .CAMERA
  · rw [if_pos h]
    exact ⟨rfl, rfl, rfl, rfl, rfl⟩
  · rw [if_neg h]
    exact ⟨rfl, rfl, rfl, rfl, rfl⟩

/-- Iterated `getY` is exactly the exponential moving average sequence on
the (unchanged) raw input. -/
theorem getYiter_ema (s : IMState) :
    ∀ n, (getYiter s n).smoothedY = emaSeq (rawOf s) s.smoothedY n := by
  have hraw : ∀ m, rawOf (getYiter s m) = rawOf s := by
    intro m
    induction m with
    | zero => rfl
    | succ k ih =>
        have hf := getY_frame (getYiter s k)
        unfold rawOf at *
        rw [show (getYiter s (k+1)) = (getY (getYiter s k)).1 from rfl]
        rw [hf.1, hf.2.1, hf.2.2.1]
        rw [← ih]
  intro n
  induction n with
  | zero => rfl
  | succ k ih =>
      have hf := getY_frame (getYiter s k)
      rw [show (getYiter s (k+1)) = (getY (getYiter s k)).1 from rfl]
      rw [hf.2.2.2.1, hraw k, ih]
      rfl

/-- One smoothing step contracts the distance to the held raw input by the
factor 78/100. -/
theorem emaSeq_sub_succ (v s0 : ℚ) (n : Nat) :
    emaSeq v s0 (n + 1) - v = (78/100) * (emaSeq v s0 n - v) := by
  show smoothStep v (emaSeq v s0 n) - v = _
  unfold smoothStep
  ring

/-- Closed form of the distance to the held raw input. -/
theorem emaSeq_sub (v s0 : ℚ) :
    ∀ n, emaSeq v s0 n - v = (78/100) ^ n * (s0 - v) := by
  intro n
  induction n with
  | zero => simp [emaSeq]
  | succ k ih =>
      rw [emaSeq_sub_succ, ih, pow_succ]
      ring

/-- C8: the exposed coordinate is the EMA `raw*0.22 + smoothed*0.78`,
applied by `getY` with the same formula in every mode; holding the raw
input constant at `v ∈ [0,1]`, successive `getY` values form `emaSeq`,
whose distance to `v` contracts by 78/100 each step (hence never grows),
never crosses `v` from either side, and becomes smaller than any positive
`ε` from some index on. -/
theorem C8_smoothing_convergence (v s0 : ℚ) (hv0 : 0 ≤ v) (hv1 : v ≤ 1) :
    (∀ s : IMState, (getY s).2 = smoothStep (rawOf s) s.smoothedY ∧
       (getY s).2 = rawOf s * (22/100) + s.smoothedY * (78/100)) ∧
    (∀ (s : IMState) (n : Nat),
       (getYiter s n).smoothedY = emaSeq (rawOf s) s.smoothedY n) ∧
    (∀ n, |emaSeq v s0 (n + 1) - v| = (78/100) * |emaSeq v s0 n - v|) ∧
    (∀ n, |emaSeq v s0 (n + 1) - v| ≤ |emaSeq v s0 n - v|) ∧
    (∀ n, s0 ≤ v → emaSeq v s0 n ≤ v) ∧
    (∀ n, v ≤ s0 → v ≤ emaSeq v s0 n) ∧
    (∀ ε : ℚ, 0 < ε → ∃ N, ∀ n, N ≤ n → |emaSeq v s0 n - v| < ε) := by
  have habs : ∀ n, |emaSeq v s0 n - v| = (78/100) ^ n * |s0 - v| := by
    intro n
    rw [emaSeq_sub, abs_mul, abs_pow, abs_of_nonneg (by norm_num : (0:ℚ) ≤ 78/100)]
  refine ⟨?_, getYiter_ema, ?_, ?_, ?_, ?_, ?_⟩
  · intro s
    refine ⟨(getY_frame s).2.2.2.2, ?_⟩
    rw [(getY_frame s).2.2.2.2]
    rfl
  · intro n
    rw [emaSeq_sub_succ, abs_mul,
      abs_of_nonneg (by norm_num : (0:ℚ) ≤ 78/100)]
  · intro n
    rw [emaSeq_sub_succ, abs_mul,
      abs_of_nonneg (by norm_num : (0:ℚ) ≤ 78/100)]
    nlinarith [abs_nonneg (emaSeq v s0 n - v)]
  · intro n hle
    have := emaSeq_sub v s0 n
    nlinarith [pow_nonneg (by norm_num : (0:ℚ) ≤ 78/100) n]
  · intro n hle
    have := emaSeq_sub v s0 n
    nlinarith [pow_nonneg (by norm_num : (0:ℚ) ≤ 78/100) n]
  · intro ε hε
    have hD1 : (0:ℚ) < |s0 - v| + 1 := by positivity
    obtain ⟨N, hN⟩ := exists_pow_lt_of_lt_one
      (div_pos hε hD1) (by norm_num : (78/100 : ℚ) < 1)
    refine ⟨N, fun n hn => ?_⟩
    calc |emaSeq v s0 n - v| = (78/100) ^ n * |s0 - v| := habs n
      _ ≤ (78/100) ^ N * |s0 - v| := by
          apply mul_le_mul_of_nonneg_right _ (abs_nonneg _)
          exact pow_le_pow_of_le_one (by norm_num) (by norm_num) hn
      _ ≤ (78/100) ^ N * (|s0 - v| + 1) := by
          apply mul_le_mul_of_nonneg_left (by linarith)
            (pow_nonneg (by norm_num) N)
      _ < (ε / (|s0 - v| + 1)) * (|s0 - v| + 1) :=
          mul_lt_mul_of_pos_right hN hD1
      _ = ε := div_mul_cancel₀ ε (ne_of_gt hD1)

/-- Witness for C8 at a concrete held input. -/
theorem C8_smoothing_convergence_witness :
    (0:ℚ) ≤ 1/2 ∧ (1/2:ℚ) ≤ 1 ∧
    (∀ n, |emaSeq (1/2) 0 (n + 1) - 1/2| ≤ |emaSeq (1/2) 0 n - 1/2|) ∧
    (∀ ε : ℚ, 0 < ε → ∃ N, ∀ n, N ≤ n → |emaSeq (1/2) 0 n - 1/2| < ε) :=
  ⟨by norm_num, by norm_num,
   (C8_smoothing_convergence (1/2) 0 (by norm_num) (by norm_num)).2.2.2.1,
   (C8_smoothing_convergence (1/2) 0 (by norm_num)
      (by norm_num)).2.2.2.2.2.2⟩

/-- All three pointer coordinates lie in the unit interval. -/
def coordsOK (s : IMState) : Prop :=
  0 ≤ s.targetY ∧ s.targetY ≤ 1 ∧ 0 ≤ s.mouseY ∧ s.mouseY ≤ 1 ∧
  0 ≤ s.smoothedY ∧ s.smoothedY ≤ 1

/-- The three coordinates agree between two states. -/
def coordsEq (s t : IMState) : Prop :=
  t.targetY = s.targetY ∧ t.mouseY = s.mouseY ∧ t.smoothedY = s.smoothedY

theorem coordsOK_of_coordsEq {s t : IMState} (he : coordsEq s t)
    (h : coordsOK s) : coordsOK t := by
  obtain ⟨h1, h2, h3⟩ := he
  unfold coordsOK at *
  rw [h1, h2, h3]
  exact h

theorem coordsEq_trans {s t u : IMState} (h1 : coordsEq s t)
    (h2 : coordsEq t u) : coordsEq s u :=
  ⟨h2.1.trans h1.1, h2.2.1.trans h1.2.1, h2.2.2.trans h1.2.2⟩

/-- The clamp `Math.max(0, Math.min(1, x))` used at every site that mutates
a raw coordinate lands in the unit interval. -/
theorem clamp01_bounds (x : ℚ) :
    0 ≤ max 0 (min 1 x) ∧ max 0 (min 1 x) ≤ 1 :=
  ⟨le_max_left _ _, max_le (by norm_num) (min_le_left _ _)⟩

/-- A smoothing step of two unit-interval values stays in the interval. -/
theorem smoothStep_bounds (raw sm : ℚ) (h1 : 0 ≤ raw) (h2 : raw ≤ 1)
    (h3 : 0 ≤ sm) (h4 : sm ≤ 1) :
    0 ≤ smoothStep raw sm ∧ smoothStep raw sm ≤ 1 := by
  unfold smoothStep
  constructor <;> nlinarith

theorem stopCameraStream_coords (s : IMState) :
    coordsEq s (stopCameraStream s) := by
  unfold stopCameraStream
  cases h : s.cameraStream <;> exact ⟨rfl, rfl, rfl⟩

theorem enableFallbackMode_coords (dep : Bool) (s : IMState) :
    coordsEq s (enableFallbackMode dep s).1 := by
  unfold enableFallbackMode
  by_cases h : s.inputType = .MOUSE
  · rw [if_pos h]
    exact ⟨rfl, rfl, rfl⟩
  · rw [if_neg h]
    cases dep <;> unfold stopCameraStream <;>
      cases hc : s.cameraStream <;> exact ⟨rfl, rfl, rfl⟩

theorem watchdogTick_coords (cfg : AIMonitoring) (dep : Bool) (s : IMState)
    (now : ℚ) : coordsEq s (watchdogTick cfg dep s now).1 := by
  unfold watchdogTick
  by_cases h : s.isProcessing = true ∧
      now - s.lastFrameTime > cfg.WATCHDOG_TIMEOUT
  · rw [if_pos h]
    exact enableFallbackMode_coords dep s
  · rw [if_neg h]
    exact ⟨rfl, rfl, rfl⟩

theorem cameraLoopFailure_coords (cfg : AIMonitoring) (dep : Bool)
    (s : IMState) : coordsEq s (cameraLoopFailure cfg dep s).1 := by
  unfold cameraLoopFailure
  by_cases h : s.consecutiveErrors + 1 > s.MAX_ERRORS
  · rw [if_pos h]
    exact coordsEq_trans (⟨rfl, rfl, rfl⟩ : coordsEq s _)
      (enableFallbackMode_coords dep _)
  · rw [if_neg h]
    exact ⟨rfl, rfl, rfl⟩

theorem cameraLoopTick_coords (cfg : AIMonitoring) (dep : Bool)
    (s : IMState) (loopId : Nat) (now : ℚ) (ready : Bool) :
    coordsEq s (cameraLoopTick cfg dep s loopId now ready).1 := by
  unfold cameraLoopTick
  by_cases h1 : loopId ≠ s.currentLoopId ∨ s.inputType ≠ .CAMERA
  · rw [if_pos h1]
    exact ⟨rfl, rfl, rfl⟩
  · rw [if_neg h1]
    by_cases h2 : s.isProcessing
    · rw [if_pos h2]
      exact ⟨rfl, rfl, rfl⟩
    · rw [if_neg h2]
      by_cases h3 : ready = true
      · rw [if_pos h3]
        cases hh : s.hands with
        | some hid => exact ⟨rfl, rfl, rfl⟩
        | none =>
            exact coordsEq_trans (⟨rfl, rfl, rfl⟩ : coordsEq s _)
              (cameraLoopFailure_coords cfg dep _)
      · rw [if_neg h3]
        exact ⟨rfl, rfl, rfl⟩

theorem hardResetAIok_coords (s : IMState) :
    coordsEq s (hardResetAIok s) := by
  unfold hardResetAIok
  cases h : s.hands <;> exact ⟨rfl, rfl, rfl⟩

theorem hardResetAIfail_coords (s : IMState) :
    coordsEq s (hardResetAIfail s) := by
  unfold hardResetAIfail
  cases h : s.hands <;> exact ⟨rfl, rfl, rfl⟩

theorem startTracking_coords (s : IMState) :
    coordsEq s (startTracking s) := by
  unfold startTracking
  by_cases h : s.inputType = .CAMERA
  · rw [if_pos h]
    exact ⟨rfl, rfl, rfl⟩
  · rw [if_neg h]
    exact ⟨rfl, rfl, rfl⟩

theorem restoreCameraMode_coords (s : IMState) :
    coordsEq s (restoreCameraMode s).1 :=
  coordsEq_trans (⟨rfl, rfl, rfl⟩ : coordsEq s _) (startTracking_coords _)

theorem stopCameraStream_targetY (s : IMState) :
    (stopCameraStream s).targetY = s.targetY := (stopCameraStream_coords s).1

theorem stopCameraStream_mouseY (s : IMState) :
    (stopCameraStream s).mouseY = s.mouseY := (stopCameraStream_coords s).2.1

theorem stopCameraStream_smoothedY (s : IMState) :
    (stopCameraStream s).smoothedY = s.smoothedY :=
  (stopCameraStream_coords s).2.2

theorem hardResetAIok_targetY (s : IMState) :
    (hardResetAIok s).targetY = s.targetY := (hardResetAIok_coords s).1

theorem hardResetAIok_mouseY (s : IMState) :
    (hardResetAIok s).mouseY = s.mouseY := (hardResetAIok_coords s).2.1

theorem hardResetAIok_smoothedY (s : IMState) :
    (hardResetAIok s).smoothedY = s.smoothedY := (hardResetAIok_coords s).2.2

theorem hardResetAIfail_targetY (s : IMState) :
    (hardResetAIfail s).targetY = s.targetY := (hardResetAIfail_coords s).1

theorem hardResetAIfail_mouseY (s : IMState) :
    (hardResetAIfail s).mouseY = s.mouseY := (hardResetAIfail_coords s).2.1

theorem hardResetAIfail_smoothedY (s : IMState) :
    (hardResetAIfail s).smoothedY = s.smoothedY :=
  (hardResetAIfail_coords s).2.2

theorem startTracking_targetY (s : IMState) :
    (startTracking s).targetY = s.targetY := (startTracking_coords s).1

theorem startTracking_mouseY (s : IMState) :
    (startTracking s).mouseY = s.mouseY := (startTracking_coords s).2.1

theorem startTracking_smoothedY (s : IMState) :
    (startTracking s).smoothedY = s.smoothedY := (startTracking_coords s).2.2

theorem attemptRecovery_coords (s : IMState) (oc : RecoveryOutcome)
    (tracks : List Nat) : coordsEq s (attemptRecovery s oc tracks).1 := by
  unfold attemptRecovery restoreCameraMode
  by_cases h : s.inputType = .CAMERA
  · rw [if_pos h]
    exact ⟨rfl, rfl, rfl⟩
  · rw [if_neg h]
    cases oc <;> refine ⟨?_, ?_, ?_⟩ <;>
      simp only [stopCameraStream_targetY, stopCameraStream_mouseY,
        stopCameraStream_smoothedY, hardResetAIok_targetY,
        hardResetAIok_mouseY, hardResetAIok_smoothedY,
        hardResetAIfail_targetY, hardResetAIfail_mouseY,
        hardResetAIfail_smoothedY, startTracking_targetY,
        startTracking_mouseY, startTracking_smoothedY]

theorem trackingStep_coords (t : IMState) (res : Results) (evs : List Ev)
    (h : coordsOK t) : coordsOK (trackingStep t res evs).1 := by
  unfold trackingStep
  cases res.hands with
  | nil => exact h
  | cons hd rest =>
      dsimp only
      by_cases hs : hd.score > 35/100
      · rw [if_pos hs]
        have hc := clamp01_bounds ((hd.indexTipY - 3/10) / (7/10 - 3/10))
        exact ⟨hc.1, hc.2, h.2.2⟩
      · rw [if_neg hs]
        exact h

theorem handleResults_coords (cfg : AIMonitoring) (dep : Bool)
    (s : IMState) (res : Results) (now : ℚ) (h : coordsOK s) :
    coordsOK (handleResults cfg dep s res now).1 := by
  unfold handleResults
  by_cases hmode : s.inputType ≠ .CAMERA
  · rw [if_pos hmode]
    exact h
  · rw [if_neg hmode]
    by_cases hgt : successStress cfg s now > cfg.CRITICAL_STRESS_THRESHOLD
    · rw [if_pos (by exact hgt)]
      by_cases hz : s.criticalStressStartTime = 0
      · rw [if_pos (by exact hz)]
        exact trackingStep_coords _ res _
          (coordsOK_of_coordsEq ⟨rfl, rfl, rfl⟩ h)
      · rw [if_neg (by exact hz)]
        by_cases hd : now - s.criticalStressStartTime >
            cfg.AUTO_FALLBACK_DURATION
        · rw [if_pos (by exact hd)]
          exact coordsOK_of_coordsEq
            (coordsEq_trans (⟨rfl, rfl, rfl⟩ : coordsEq s _)
              (enableFallbackMode_coords dep _)) h
        · rw [if_neg (by exact hd)]
          exact trackingStep_coords _ res _
            (coordsOK_of_coordsEq ⟨rfl, rfl, rfl⟩ h)
    · rw [if_neg (by exact hgt)]
      exact trackingStep_coords _ res _
        (coordsOK_of_coordsEq ⟨rfl, rfl, rfl⟩ h)

/-- C9: the three pointer coordinates start at 0.5 and stay in `[0, 1]`
under every operation of the pipeline — both pointer listeners clamp their
raw input, `handleResults` clamps the camera target, every other operation
leaves the coordinates untouched, and `getY` always returns a convex
combination of two unit-interval values, hence a value in `[0, 1]`, in
every mode. -/
theorem C9_smoothed_position_in_unit_interval :
    coordsOK initialIMState ∧
    (∀ (s : IMState) (r : ℚ), coordsOK s → coordsOK (mouseMove s r)) ∧
    (∀ (s : IMState) (ts : List ℚ), coordsOK s → coordsOK (touchMove s ts)) ∧
    (∀ (cfg : AIMonitoring) (dep : Bool) (s : IMState) (res : Results)
        (now : ℚ), coordsOK s → coordsOK (handleResults cfg dep s res now).1) ∧
    (∀ (dep : Bool) (s : IMState), coordsOK s →
      coordsOK (enableFallbackMode dep s).1) ∧
    (∀ (cfg : AIMonitoring) (dep : Bool) (s : IMState) (now : ℚ),
      coordsOK s → coordsOK (watchdogTick cfg dep s now).1) ∧
    (∀ (cfg : AIMonitoring) (dep : Bool) (s : IMState), coordsOK s →
      coordsOK (cameraLoopFailure cfg dep s).1) ∧
    (∀ (cfg : AIMonitoring) (dep : Bool) (s : IMState) (loopId : Nat)
        (now : ℚ) (ready : Bool), coordsOK s →
      coordsOK (cameraLoopTick cfg dep s loopId now ready).1) ∧
    (∀ (s : IMState) (oc : RecoveryOutcome) (tracks : List Nat),
      coordsOK s → coordsOK (attemptRecovery s oc tracks).1) ∧
    (∀ s : IMState, coordsOK s →
      coordsOK (getY s).1 ∧ 0 ≤ (getY s).2 ∧ (getY s).2 ≤ 1) := by
  refine ⟨?_, ?_, ?_, handleResults_coords, ?_, ?_, ?_, ?_, ?_, ?_⟩
  · unfold coordsOK initialIMState
    norm_num
  · intro s r h
    have hc := clamp01_bounds r
    exact ⟨h.1, h.2.1, hc.1, hc.2, h.2.2.2.2⟩
  · intro s ts h
    unfold touchMove
    cases ts with
    | nil => exact h
    | cons t rest =>
        have hc := clamp01_bounds t
        exact ⟨h.1, h.2.1, hc.1, hc.2, h.2.2.2.2⟩
  · intro dep s h
    exact coordsOK_of_coordsEq (enableFallbackMode_coords dep s) h
  · intro cfg dep s now h
    exact coordsOK_of_coordsEq (watchdogTick_coords cfg dep s now) h
  · intro cfg dep s h
    exact coordsOK_of_coordsEq (cameraLoopFailure_coords cfg dep s) h
  · intro cfg dep s loopId now ready h
    exact coordsOK_of_coordsEq
      (cameraLoopTick_coords cfg dep s loopId now ready) h
  · intro s oc tracks h
    exact coordsOK_of_coordsEq (attemptRecovery_coords s oc tracks) h
  · intro s h
    have hraw : 0 ≤ rawOf s ∧ rawOf s ≤ 1 := by
      unfold rawOf
      by_cases hm : s.inputType = .CAMERA
      · rw [if_pos hm]
        exact ⟨h.1, h.2.1⟩
      · rw [if_neg hm]
        exact ⟨h.2.2.1, h.2.2.2.1⟩
    have hsm := smoothStep_bounds (rawOf s) s.smoothedY hraw.1 hraw.2
      h.2.2.2.2.1 h.2.2.2.2.2
    have hf := getY_frame s
    refine ⟨⟨?_, ?_, ?_, ?_, ?_, ?_⟩, ?_, ?_⟩
    · rw [hf.2.1]; exact h.1
    · rw [hf.2.1]; exact h.2.1
    · rw [hf.2.2.1]; exact h.2.2.1
    · rw [hf.2.2.1]; exact h.2.2.2.1
    · rw [hf.2.2.2.1]; exact hsm.1
    · rw [hf.2.2.2.1]; exact hsm.2
    · rw [hf.2.2.2.2]; exact hsm.1
    · rw [hf.2.2.2.2]; exact hsm.2

/-- Witness for C9 at the constructor state. -/
theorem C9_smoothed_position_in_unit_interval_witness :
    coordsOK initialIMState ∧ 0 ≤ (getY initialIMState).2 ∧
    (getY initialIMState).2 ≤ 1 :=
  ⟨C9_smoothed_position_in_unit_interval.1,
   (C9_smoothed_position_in_unit_interval.2.2.2.2.2.2.2.2.2 initialIMState
      C9_smoothed_position_in_unit_interval.1).2⟩

/-- A subscriber callback of the telemetry bus: given the event payload and
the world it either returns normally with an updated world or throws. -/
def Callback (α σ ε : Type) : Type := α → σ → Except ε σ

/-- The `try { callback(data) } catch (error) { console.error(...) }` body
of the `forEach` inside `EventManager.emit`: an exception is caught and
logged; the failed call leaves the world as it was. -/
def invokeSafely {α σ ε : Type} (cb : Callback α σ ε) (d : α) (st : σ) :
    σ × Option ε :=
  match cb d st with
  | .ok st2 => (st2, none)
  | .error e => (st, some e)

/-- The `forEach` of `EventManager.emit` over a copy of the callback array:
every callback is invoked once, in order, each seeing the world left by its
predecessors; the trace records, per subscriber, whether its callback
threw. -/
def runCallbacks {α σ ε : Type} :
    List (Callback α σ ε) → α → σ → σ × List (Option ε)
  | [], _, st => (st, [])
  | cb :: rest, d, st =>
      let r := invokeSafely cb d st
      let rr := runCallbacks rest d r.1
      (rr.1, r.2 :: rr.2)

/-- `EventManager.emit(eventName, data)`: returns immediately when the
listeners map has no entry for the event, otherwise runs every registered
callback.  Event names are an arbitrary decidable type standing for the
string constants of `EVENTS`. -/
def emit {ν α σ ε : Type} [BEq ν]
    (listeners : List (ν × List (Callback α σ ε))) (name : ν) (d : α)
    (st : σ) : σ × List (Option ε) :=
  match listeners.lookup name with
  | none => (st, [])
  | some cbs => runCallbacks cbs d st

/-- C10: a subscriber callback that throws is caught inside
`EventManager.emit` — the exception is recorded in the per-subscriber trace
instead of propagating, the world is left as the failed callback found it,
and every remaining subscriber still runs exactly as it would have from
that same world; every subscriber is invoked exactly once per emit
(one trace entry each, errors notwithstanding); emitting an event with no
registered listeners is a no-op. -/
theorem C10_emit_isolates_subscriber_failures {ν α σ ε : Type} [BEq ν] :
    (∀ (cbs : List (Callback α σ ε)) (d : α) (st : σ),
       (runCallbacks cbs d st).2.length = cbs.length) ∧
    (∀ (cb : Callback α σ ε) (rest : List (Callback α σ ε)) (d : α)
        (st : σ) (e : ε), cb d st = .error e →
       runCallbacks (cb :: rest) d st =
         ((runCallbacks rest d st).1,
          some e :: (runCallbacks rest d st).2)) ∧
    (∀ (cb : Callback α σ ε) (rest : List (Callback α σ ε)) (d : α)
        (st st2 : σ), cb d st = .ok st2 →
       runCallbacks (cb :: rest) d st =
         ((runCallbacks rest d st2).1,
          none :: (runCallbacks rest d st2).2)) ∧
    (∀ (listeners : List (ν × List (Callback α σ ε))) (name : ν) (d : α)
        (st : σ), listeners.lookup name = none →
       emit listeners name d st = (st, [])) := by
  refine ⟨?_, ?_, ?_, ?_⟩
  · intro cbs d
    induction cbs with
    | nil => intro st; rfl
    | cons cb rest ih =>
        intro st
        show ((runCallbacks rest d (invokeSafely cb d st).1).2.length + 1 = _)
        rw [ih]
        rfl
  · intro cb rest d st e he
    show ((runCallbacks rest d (invokeSafely cb d st).1).1,
      (invokeSafely cb d st).2 ::
        (runCallbacks rest d (invokeSafely cb d st).1).2) = _
    unfold invokeSafely
    rw [he]
  · intro cb rest d st st2 he
    show ((runCallbacks rest d (invokeSafely cb d st).1).1,
      (invokeSafely cb d st).2 ::
        (runCallbacks rest d (invokeSafely cb d st).1).2) = _
    unfold invokeSafely
    rw [he]
  · intro listeners name d st hl
    unfold emit
    rw [hl]

/-- Witness for C10 with two concrete subscribers, the first of which
always throws. -/
theorem C10_emit_isolates_subscriber_failures_witness :
    ((fun (_ : Nat) (_ : Nat) => (Except.error 7 : Except Nat Nat)) 5 0 =
       Except.error 7) ∧
    runCallbacks
        [fun (_ : Nat) (_ : Nat) => (Except.error 7 : Except Nat Nat),
         fun d st => (Except.ok (st + d) : Except Nat Nat)] 5 0 =
      ((runCallbacks [fun d st =>
          (Except.ok (st + d) : Except Nat Nat)] 5 0).1,
       some 7 :: (runCallbacks [fun d st =>
          (Except.ok (st + d) : Except Nat Nat)] 5 0).2) ∧
    (([] : List (Nat × List (Callback Nat Nat Nat))).lookup 3 = none) ∧
    emit ([] : List (Nat × List (Callback Nat Nat Nat))) 3 5 0 = (0, []) :=
  ⟨rfl,
   (C10_emit_isolates_subscriber_failures (ν := Nat)).2.1
     (fun _ _ => Except.error 7)
     [fun d st => (Except.ok (st + d) : Except Nat Nat)] 5 0 7 rfl,
   rfl,
   (C10_emit_isolates_subscriber_failures (ν := Nat)).2.2.2 [] 3 5 0 rfl⟩

/-- State right after a successful `init()` followed by `startTracking()`:
CAMERA mode, a live `Hands` instance, an acquired stream, loop generation 1
and a running watchdog. -/
def startState : IMState :=
  { initialIMState with inputType := .CAMERA, isInitialized := true,
                        hands := some 0, nextHandsId := 1,
                        cameraStream := some [0, 1], currentLoopId := 1,
                        watchdogActive := true }

theorem stopCameraStream_pendingCalls (s : IMState) :
    (stopCameraStream s).pendingCalls = s.pendingCalls := by
  unfold stopCameraStream
  cases h : s.cameraStream <;> rfl

theorem stopCameraStream_hands (s : IMState) :
    (stopCameraStream s).hands = s.hands := by
  unfold stopCameraStream
  cases h : s.cameraStream <;> rfl

theorem stopCameraStream_inputType (s : IMState) :
    (stopCameraStream s).inputType = s.inputType := by
  unfold stopCameraStream
  cases h : s.cameraStream <;> rfl

theorem startTracking_pendingCalls (s : IMState) :
    (startTracking s).pendingCalls = s.pendingCalls := by
  unfold startTracking
  by_cases h : s.inputType = .CAMERA
  · rw [if_pos h]
  · rw [if_neg h]

theorem startTracking_hands (s : IMState) :
    (startTracking s).hands = s.hands := by
  unfold startTracking
  by_cases h : s.inputType = .CAMERA
  · rw [if_pos h]
  · rw [if_neg h]

/-- `enableFallbackMode` always ends in MOUSE mode and never touches the
outstanding-call ghost state or the engine reference. -/
theorem enableFallbackMode_ghost (dep : Bool) (s : IMState) :
    (enableFallbackMode dep s).1.pendingCalls = s.pendingCalls ∧
    (enableFallbackMode dep s).1.hands = s.hands := by
  unfold enableFallbackMode
  by_cases h : s.inputType = .MOUSE
  · rw [if_pos h]
    exact ⟨rfl, rfl⟩
  · rw [if_neg h]
    cases dep <;> unfold stopCameraStream <;> cases hc : s.cameraStream <;>
      exact ⟨rfl, rfl⟩

theorem trackingStep_ghost (s : IMState) (res : Results) (evs : List Ev) :
    (trackingStep s res evs).1.pendingCalls = s.pendingCalls ∧
    (trackingStep s res evs).1.hands = s.hands := by
  unfold trackingStep
  cases res.hands with
  | nil => exact ⟨rfl, rfl⟩
  | cons h rest =>
      dsimp only
      by_cases hs : h.score > 35/100
      · rw [if_pos hs]
        exact ⟨rfl, rfl⟩
      · rw [if_neg hs]
        exact ⟨rfl, rfl⟩

theorem handleResults_ghost (cfg : AIMonitoring) (dep : Bool) (s : IMState)
    (res : Results) (now : ℚ) :
    (handleResults cfg dep s res now).1.pendingCalls = s.pendingCalls ∧
    (handleResults cfg dep s res now).1.hands = s.hands := by
  unfold handleResults
  by_cases hm : s.inputType ≠ .CAMERA
  · rw [if_pos hm]
    exact ⟨rfl, rfl⟩
  · rw [if_neg hm]
    by_cases hgt : successStress cfg s now > cfg.CRITICAL_STRESS_THRESHOLD
    · rw [if_pos (by exact hgt)]
      by_cases hz : s.criticalStressStartTime = 0
      · rw [if_pos (by exact hz)]
        exact trackingStep_ghost _ res _
      · rw [if_neg (by exact hz)]
        by_cases hd : now - s.criticalStressStartTime >
            cfg.AUTO_FALLBACK_DURATION
        · rw [if_pos (by exact hd)]
          exact enableFallbackMode_ghost dep _
        · rw [if_neg (by exact hd)]
          exact trackingStep_ghost _ res _
    · rw [if_neg (by exact hgt)]
      exact trackingStep_ghost _ res _

theorem cameraLoopFailure_ghost (cfg : AIMonitoring) (dep : Bool)
    (s : IMState) :
    (cameraLoopFailure cfg dep s).1.pendingCalls = s.pendingCalls ∧
    (cameraLoopFailure cfg dep s).1.hands = s.hands := by
  unfold cameraLoopFailure
  by_cases hgt : s.consecutiveErrors + 1 > s.MAX_ERRORS
  · rw [if_pos hgt]
    exact enableFallbackMode_ghost dep _
  · rw [if_neg hgt]
    exact ⟨rfl, rfl⟩

/-- Closing the current instance discards every outstanding call, because
each of them was submitted to that very instance. -/
theorem hardResetAIok_pendingCalls_nil (x : IMState)
    (hinst : ∀ p ∈ x.pendingCalls, x.hands = some p.handsId) :
    (hardResetAIok x).pendingCalls = [] := by
  unfold hardResetAIok
  cases hh : x.hands with
  | none =>
      dsimp only
      show x.pendingCalls = []
      rw [List.eq_nil_iff_forall_not_mem]
      intro p hp
      have h2 := hinst p hp
      rw [hh] at h2
      exact Option.noConfusion h2
  | some h0 =>
      dsimp only
      show x.pendingCalls.filter (fun p => p.handsId ≠ h0) = []
      rw [List.filter_eq_nil_iff]
      intro a ha
      have h2 := hinst a ha
      rw [hh] at h2
      injection h2 with h3
      simp [h3]

theorem hardResetAIfail_pendingCalls_nil (x : IMState)
    (hinst : ∀ p ∈ x.pendingCalls, x.hands = some p.handsId) :
    (hardResetAIfail x).pendingCalls = [] := by
  unfold hardResetAIfail
  cases hh : x.hands with
  | none =>
      show x.pendingCalls = []
      rw [List.eq_nil_iff_forall_not_mem]
      intro p hp
      have h2 := hinst p hp
      rw [hh] at h2
      exact Option.noConfusion h2
  | some h0 =>
      show x.pendingCalls.filter (fun p => p.handsId ≠ h0) = []
      rw [List.filter_eq_nil_iff]
      intro a ha
      have h2 := hinst a ha
      rw [hh] at h2
      injection h2 with h3
      simp [h3]

/-- The single-flight invariant: at most one inference call is outstanding;
whenever the mode is CAMERA and the gate is free there is no outstanding
call at all; and every outstanding call was submitted to the currently held
`Hands` instance. -/
def SFInv (s : IMState) : Prop :=
  s.pendingCalls.length ≤ 1 ∧
  (s.inputType = .CAMERA → s.isProcessing = false → s.pendingCalls = []) ∧
  (∀ p ∈ s.pendingCalls, s.hands = some p.handsId)

theorem noPending_inv {t : IMState} (h : t.pendingCalls = []) : SFInv t :=
  ⟨by rw [h]; norm_num, fun _ _ => h,
   fun p hp => absurd (h ▸ hp) (List.not_mem_nil p)⟩

theorem pending_singleton {l : List PendingCall} (h1 : l.length ≤ 1)
    {p : PendingCall} (hp : p ∈ l) : l = [p] := by
  match l, hp with
  | [x], hp => rw [List.mem_singleton.mp hp]
  | x :: y :: t, hp => simp at h1

theorem enableFallbackMode_mouse (dep : Bool) (s : IMState) :
    (enableFallbackMode dep s).1.inputType = .MOUSE := by
  unfold enableFallbackMode
  by_cases h : s.inputType = .MOUSE
  · rw [if_pos h]
    exact h
  · rw [if_neg h]
    cases dep <;> unfold stopCameraStream <;> cases hc : s.cameraStream <;>
      rfl

/-- Every recovery attempt preserves the single-flight invariant: on the
paths that construct a fresh engine, `_hardResetAI` closes the previous
instance, discarding all outstanding calls (which were all on it). -/
theorem attemptRecovery_inv (s : IMState) (oc : RecoveryOutcome)
    (tracks : List Nat) (hInv : SFInv s) :
    SFInv (attemptRecovery s oc tracks).1 := by
  unfold attemptRecovery restoreCameraMode
  by_cases h : s.inputType = .CAMERA
  · rw [if_pos h]
    exact ⟨hInv.1, fun hm hp => hInv.2.1 hm hp, hInv.2.2⟩
  · rw [if_neg h]
    cases oc with
    | cameraFail =>
        refine ⟨?_, ?_, ?_⟩
        · simp only [stopCameraStream_pendingCalls]
          exact hInv.1
        · intro hm
          exfalso
          simp only [stopCameraStream_inputType] at hm
          exact h hm
        · intro p hp
          simp only [stopCameraStream_pendingCalls] at hp
          simp only [stopCameraStream_hands]
          exact hInv.2.2 p hp
    | aiFail =>
        refine noPending_inv ?_
        simp only [stopCameraStream_pendingCalls]
        apply hardResetAIfail_pendingCalls_nil
        intro p hp
        simp only [stopCameraStream_pendingCalls] at hp
        simp only [stopCameraStream_hands]
        exact hInv.2.2 p hp
    | videoNotReady =>
        refine noPending_inv ?_
        apply hardResetAIok_pendingCalls_nil
        intro p hp
        simp only [stopCameraStream_pendingCalls] at hp
        simp only [stopCameraStream_hands]
        exact hInv.2.2 p hp
    | probeFail =>
        refine noPending_inv ?_
        simp only [stopCameraStream_pendingCalls]
        apply hardResetAIok_pendingCalls_nil
        intro p hp
        simp only [stopCameraStream_pendingCalls] at hp
        simp only [stopCameraStream_hands]
        exact hInv.2.2 p hp
    | success =>
        refine noPending_inv ?_
        simp only [startTracking_pendingCalls]
        apply hardResetAIok_pendingCalls_nil
        intro p hp
        simp only [stopCameraStream_pendingCalls] at hp
        simp only [stopCameraStream_hands]
        exact hInv.2.2 p hp

/-- The interleaved small-step semantics of the pipeline: frame-loop ticks,
asynchronous completions of outstanding calls (success and failure),
watchdog firings, recovery-prober ticks, pointer-listener events and
`getY` queries, each running to its next suspension point. -/
inductive Step (cfg : AIMonitoring) (dep : Bool) :
    IMState → List Ev → IMState → Prop where
  | tick (s : IMState) (loopId : Nat) (now : ℚ) (ready : Bool) :
      Step cfg dep s (cameraLoopTick cfg dep s loopId now ready).2.1
        (cameraLoopTick cfg dep s loopId now ready).1
  | sendSuccess (s : IMState) (p : PendingCall) (res : Results) (now : ℚ)
      (hp : p ∈ s.pendingCalls) :
      Step cfg dep s
        (handleResults cfg dep
          { s with pendingCalls := s.pendingCalls.erase p } res now).2
        (handleResults cfg dep
          { s with pendingCalls := s.pendingCalls.erase p } res now).1
  | sendFailure (s : IMState) (p : PendingCall) (hp : p ∈ s.pendingCalls) :
      Step cfg dep s
        (cameraLoopFailure cfg dep
          { s with pendingCalls := s.pendingCalls.erase p }).2.1
        (cameraLoopFailure cfg dep
          { s with pendingCalls := s.pendingCalls.erase p }).1
  | watchdog (s : IMState) (now : ℚ) (hw : s.watchdogActive = true) :
      Step cfg dep s (watchdogTick cfg dep s now).2
        (watchdogTick cfg dep s now).1
  | recovery (s : IMState) (oc : RecoveryOutcome) (tracks : List Nat)
      (hr : s.recoveryActive = true) :
      Step cfg dep s (attemptRecovery s oc tracks).2
        (attemptRecovery s oc tracks).1
  | pointer (s : IMState) (r : ℚ) : Step cfg dep s [] (mouseMove s r)
  | query (s : IMState) : Step cfg dep s [] (getY s).1

/-- The single-flight invariant is preserved by every step. -/
theorem inv_preserved (cfg : AIMonitoring) (dep : Bool) {s : IMState}
    {evs : List Ev} {t : IMState} (hInv : SFInv s)
    (hstep : Step cfg dep s evs t) : SFInv t := by
  cases hstep with
  | tick loopId now ready =>
      unfold cameraLoopTick
      by_cases h1 : loopId ≠ s.currentLoopId ∨ s.inputType ≠ .CAMERA
      · rw [if_pos h1]
        exact hInv
      · rw [if_neg h1]
        push_neg at h1
        by_cases h2 : s.isProcessing
        · rw [if_pos h2]
          exact hInv
        · rw [if_neg h2]
          have hproc : s.isProcessing = false := by
            cases hb : s.isProcessing
            · rfl
            · exact absurd hb h2
          have hempty : s.pendingCalls = [] := hInv.2.1 h1.2 hproc
          by_cases h3 : ready = true
          · rw [if_pos h3]
            cases hh : s.hands with
            | some hid =>
                refine ⟨?_, ?_, ?_⟩
                · show (PendingCall.mk loopId hid ::
                      s.pendingCalls).length ≤ 1
                  rw [hempty]
                  norm_num
                · intro hm hp
                  simp at hp
                · intro p hp
                  have hp2 : p ∈ PendingCall.mk loopId hid ::
                      s.pendingCalls := hp
                  rw [hempty] at hp2
                  have hpe := List.mem_singleton.mp hp2
                  show (some hid : Option Nat) = some p.handsId
                  rw [hpe]
            | none =>
                refine noPending_inv ?_
                rw [(cameraLoopFailure_ghost cfg dep _).1]
                exact hempty
          · rw [if_neg h3]
            exact hInv
  | sendSuccess p res now hp =>
      refine noPending_inv ?_
      rw [(handleResults_ghost cfg dep _ res now).1]
      show s.pendingCalls.erase p = []
      rw [pending_singleton hInv.1 hp]
      simp
  | sendFailure p hp =>
      refine noPending_inv ?_
      rw [(cameraLoopFailure_ghost cfg dep _).1]
      show s.pendingCalls.erase p = []
      rw [pending_singleton hInv.1 hp]
      simp
  | watchdog now hw =>
      unfold watchdogTick
      by_cases hc : s.isProcessing = true ∧
          now - s.lastFrameTime > cfg.WATCHDOG_TIMEOUT
      · rw [if_pos hc]
        have hmouse := enableFallbackMode_mouse dep s
        have hg := enableFallbackMode_ghost dep s
        refine ⟨?_, ?_, ?_⟩
        · show (enableFallbackMode dep s).1.pendingCalls.length ≤ 1
          rw [hg.1]
          exact hInv.1
        · intro hm hp2
          exfalso
          have hm2 : (enableFallbackMode dep s).1.inputType = .CAMERA := hm
          rw [hmouse] at hm2
          exact InputMode.noConfusion hm2
        · intro q hq
          have hq2 : q ∈ (enableFallbackMode dep s).1.pendingCalls := hq
          rw [hg.1] at hq2
          show (enableFallbackMode dep s).1.hands = some q.handsId
          rw [hg.2]
          exact hInv.2.2 q hq2
      · rw [if_neg hc]
        exact hInv
  | recovery oc tracks hr => exact attemptRecovery_inv s oc tracks hInv
  | pointer r => exact hInv
  | query => exact hInv

/-- States reachable from the freshly started CAMERA session. -/
inductive Reachable (cfg : AIMonitoring) (dep : Bool) : IMState → Prop where
  | start : Reachable cfg dep startState
  | step {s : IMState} {evs : List Ev} {t : IMState} :
      Reachable cfg dep s → Step cfg dep s evs t → Reachable cfg dep t

theorem reachable_inv (cfg : AIMonitoring) (dep : Bool) (s : IMState)
    (h : Reachable cfg dep s) : SFInv s := by
  induction h with
  | start => exact noPending_inv rfl
  | step hr hs ih => exact inv_preserved cfg dep ih hs

/-- C4: in every reachable state, a frame tick that issues a `hands.send`
does so with no outstanding inference call — the loop's backpressure gate
ensures a submission can only happen after every previous call's completion
was consumed or its engine instance torn down; and a tick that finds the
lock held submits nothing, instead emitting a stress sample computed from
the elapsed wait since the lock was taken, and reschedules itself. -/
theorem C4_single_flight (cfg : AIMonitoring) (dep : Bool) (s : IMState)
    (hreach : Reachable cfg dep s) :
    (∀ (loopId : Nat) (now : ℚ) (ready : Bool) (g : Nat),
       Ev.submit g ∈ (cameraLoopTick cfg dep s loopId now ready).2.1 →
       s.pendingCalls = []) ∧
    (∀ (loopId : Nat) (now : ℚ), loopId = s.currentLoopId →
       s.inputType = .CAMERA → s.isProcessing = true →
       cameraLoopTick cfg dep s loopId now true =
         (s, [Ev.stressUpdated
            (calculateHybridStress cfg s (now - s.lastFrameTime))],
          .backpressure)) := by
  have hInv := reachable_inv cfg dep s hreach
  constructor
  · intro loopId now ready g hmem
    unfold cameraLoopTick at hmem
    by_cases h1 : loopId ≠ s.currentLoopId ∨ s.inputType ≠ .CAMERA
    · rw [if_pos h1] at hmem
      exact absurd hmem (List.not_mem_nil _)
    · rw [if_neg h1] at hmem
      push_neg at h1
      by_cases h2 : s.isProcessing
      · rw [if_pos h2] at hmem
        rcases List.mem_cons.mp hmem with h | h
        · exact Ev.noConfusion h
        · exact absurd h (List.not_mem_nil _)
      · have hproc : s.isProcessing = false := by
          cases hb : s.isProcessing
          · rfl
          · exact absurd hb h2
        exact hInv.2.1 h1.2 hproc
  · intro loopId now h1 h2 h3
    unfold cameraLoopTick
    rw [if_neg (show ¬ (loopId ≠ s.currentLoopId ∨ s.inputType ≠ .CAMERA) by
          push_neg
          exact ⟨h1, h2⟩),
      if_pos h3]

/-- Witness for C4: the first tick of the started session actually submits,
and at that point no call is outstanding. -/
theorem C4_single_flight_witness :
    Reachable sampleCfg true startState ∧
    Ev.submit 1 ∈ (cameraLoopTick sampleCfg true startState 1 5 true).2.1 ∧
    startState.pendingCalls = [] :=
  ⟨Reachable.start,
   by
     rw [show (cameraLoopTick sampleCfg true startState 1 5 true).2.1 =
         [Ev.submit 1] from rfl]
     exact List.mem_singleton.mpr rfl,
   (C4_single_flight sampleCfg true startState Reachable.start).1 1 5 true 1
     (by
       rw [show (cameraLoopTick sampleCfg true startState 1 5 true).2.1 =
           [Ev.submit 1] from rfl]
       exact List.mem_singleton.mpr rfl)⟩
